import Mathlib

/-!
Verification of the smart-irrigation watering-decision engine
(`src/main.py`, route `watering_decision` plus its helper logic).

Numbers that the Python code handles as floats are modelled as exact
rationals (`ℚ`); the SQLite stores and the HTTP layer are modelled as
explicit state passing (a list of `DecisionRecord`s) and an
`Except`-valued route function.  External collaborators whose code is
not present in the repository snapshot (the weather gateway, the crop
table, the sensor/tank queries and the translation table) appear as
abstract inputs or function parameters, following the spec.
-/

namespace Irrigation

/-- A sensor reading as returned by `get_sensor_data`; a `none`
timestamp is the "no data available" sentinel. The timestamp itself is
abstracted to a natural number. -/
structure SensorReading where
  soil_moisture : ℚ
  temperature : ℚ
  humidity : ℚ
  timestamp : Option Nat
deriving Repr, DecidableEq

/-- One row of the `fields` table (crop, sow_date, area, soil_depth);
dates are abstracted to integers (day counts). -/
structure FieldRow where
  crop : String
  sow_date : ℤ
  area : ℚ
  soil_depth : ℚ
deriving Repr, DecidableEq

/-- Daily forecast data: per-day precipitation and max temperature,
indexed by day offset (0 = today, 1 = tomorrow, ...). -/
structure ForecastData where
  precipitation : List ℚ
  max_temperatures : List ℚ
deriving Repr, DecidableEq

/-- A row of the `decisions` table as inserted by the route
(`INSERT INTO decisions (decision, water_amount) VALUES (?, ?)`). -/
structure DecisionRecord where
  decision : String
  water_amount : ℤ
deriving Repr, DecidableEq

/-- `moisture_threshold = 30.0` from the route body. -/
def moisture_threshold : ℚ := 30

/-- `critical_moisture = 10.0` from the route body. -/
def critical_moisture : ℚ := 10

/-- `predicted_rain`: `daily_forecast['precipitation'][1]` when the
forecast is present and has at least two precipitation entries, else
`0.0` (lines 92-94 of `main.py`). -/
def predictedRain (f : Option ForecastData) : ℚ :=
  match f with
  | none => 0
  | some d => if 2 ≤ d.precipitation.length then d.precipitation.getD 1 0 else 0

/-- `today_prec`: `daily_forecast['precipitation'][0]` when the
forecast is present with a non-empty precipitation list, else `0.0`
(line 102 of `main.py`). -/
def todayPrec (f : Option ForecastData) : ℚ :=
  match f with
  | none => 0
  | some d =>
    match d.precipitation with
    | [] => 0
    | p :: _ => p

/-- The ordered decision rules of lines 96-114 of `main.py`, before the
deficit-warning reconciliation; the final `else: pass` leaves the
initial empty string in place. -/
def decisionTextPre (soil humidity today_prec tomorrow_prec : ℚ) : String :=
  if soil ≥ moisture_threshold then
    "No watering needed; soil moisture sufficient."
  else if today_prec > 3/10 then
    "No watering needed; rain expected today."
  else if tomorrow_prec > 3/10 ∧ soil ≥ critical_moisture then
    "No watering needed; rain expected tomorrow and soil not critically low."
  else if soil < critical_moisture ∧ tomorrow_prec > 3/10 then
    "Minimal watering recommended; soil critically low but rain tomorrow."
  else if humidity < 30 then
    "Watering needed; low humidity and no rain expected."
  else
    ""

/-- Does the character list `p` occur at the start of `l`? -/
def listStartsWith : List Char → List Char → Bool
  | [], _ => true
  | _ :: _, [] => false
  | a :: p, b :: l => a = b && listStartsWith p l

/-- Does the character list `p` occur somewhere inside `l`? -/
def listHasSub (p l : List Char) : Bool :=
  match l with
  | [] => listStartsWith p []
  | _ :: t => listStartsWith p l || listHasSub p t

/-- Python's substring test `pat in s`. -/
def strHasSub (s pat : String) : Bool :=
  listHasSub pat.data s.data

/-- Modelled from the spec: `calculate_water_amount` is referenced by
the route (line 116 of `main.py`) but its body is among the helper
functions omitted from the snapshot ("skipped here for brevity"); this
follows the algorithm of spec §4.2 verbatim, with `round` the usual
round-half-up on rationals. -/
def calculate_water_amount (soil area soil_depth predicted_rain et0 kc humidity : ℚ) : ℤ :=
  let etc_mm := et0 * kc
  let soilDepthMm := soil_depth * 1000
  let currentMoistureMm := (soil / 100) * soilDepthMm
  let deficitMm := max 0 (etc_mm - currentMoistureMm / area - predicted_rain)
  let adjusted :=
    if humidity < 30 then deficitMm * (6/5)
    else if humidity > 80 then deficitMm * (9/10)
    else deficitMm
  max 0 (round (adjusted * area))

/-- Lines 118-119 of `main.py`: override the decision text with the
deficit warning when it claims "No watering needed" yet the computed
water amount is positive. -/
def finalDecisionText (pre : String) (water : ℤ) : String :=
  if strHasSub pre "No watering needed" = true ∧ 0 < water then
    "Warning: water deficit detected, " ++ toString water ++ " liters needed."
  else pre

/-- Lines 130-134 of `main.py`: the coarse field-condition label. -/
def classifyCondition (soil : ℚ) : String :=
  if soil < critical_moisture then "Poor - critically low moisture"
  else if soil < moisture_threshold then "Fair - moisture below threshold"
  else "Good"

/-- Lines 136-141 of `main.py`: the temperature-spike advisory. -/
def tempWarning (f : Option ForecastData) : Option String :=
  match f with
  | none => none
  | some d =>
    if 2 ≤ d.max_temperatures.length then
      if d.max_temperatures.getD 1 0 > d.max_temperatures.getD 0 0 + 4 then
        some "High temperature spike expected tomorrow."
      else none
    else none

/-- Line 89 of `main.py`: `get_et0_from_openmeteo(...) or 3.0` under
Python truthiness — `None` and `0.0` are falsy, so both fall back to
the default `3.0`. The fetch result is `none` on failure. -/
def et0OrDefault (r : Option ℚ) : ℚ :=
  match r with
  | none => 3
  | some v => if v = 0 then 3 else v

/-- All request-scoped inputs of the route that come from collaborators
outside the snapshot: the latest sensor row, the single `fields` row
(if any), the weather fetches, the crop-stage computation
`calculate_dynamic_kc_for_crop` (kc, stage name, days elapsed), the
latest tank level, and "today" for the default sow date. -/
structure RouteInputs where
  sensor : SensorReading
  fieldRow : Option FieldRow
  forecast : Option ForecastData
  et0_fetch : Option ℚ
  kcResult : ℚ × String × ℕ
  tank : Option ℚ
  today : ℤ

/-- Crop key: the `fields` row's crop, or the `'banana'` default. -/
def cropOf (inp : RouteInputs) : String :=
  match inp.fieldRow with
  | some r => r.crop
  | none => "banana"

/-- Sow date: from the `fields` row, or `date.today()` by default. -/
def sowDateOf (inp : RouteInputs) : ℤ :=
  match inp.fieldRow with
  | some r => r.sow_date
  | none => inp.today

/-- Field area: from the `fields` row, or the default `10`. -/
def areaOf (inp : RouteInputs) : ℚ :=
  match inp.fieldRow with
  | some r => r.area
  | none => 10

/-- Soil depth: from the `fields` row, or the default `0.2`. -/
def depthOf (inp : RouteInputs) : ℚ :=
  match inp.fieldRow with
  | some r => r.soil_depth
  | none => 2/10

/-- The decision text produced by the ordered rules for this request,
before reconciliation. -/
def preTextOf (inp : RouteInputs) : String :=
  decisionTextPre inp.sensor.soil_moisture inp.sensor.humidity
    (todayPrec inp.forecast) (predictedRain inp.forecast)

/-- The engine's raw computed water amount for this request
(line 116 of `main.py`). -/
def waterAmountOf (inp : RouteInputs) : ℤ :=
  calculate_water_amount inp.sensor.soil_moisture (areaOf inp) (depthOf inp)
    (predictedRain inp.forecast) (et0OrDefault inp.et0_fetch)
    inp.kcResult.1 inp.sensor.humidity

/-- The final decision text for this request, after the reconciliation
override of lines 118-119. -/
def finalTextOf (inp : RouteInputs) : String :=
  finalDecisionText (preTextOf inp) (waterAmountOf inp)

/-- The `decisions` row inserted by the route (line 123). -/
def mkRecord (inp : RouteInputs) : DecisionRecord :=
  { decision := finalTextOf inp, water_amount := waterAmountOf inp }

/-- The inner `result` object of the response (lines 143-159). -/
structure RouteResult where
  crop : String
  crop_display : String
  sow_date : String
  days_elapsed : ℕ
  stage : String
  kc : ℚ
  et0_mm_per_day : ℚ
  soil_moisture : ℚ
  humidity : ℚ
  predicted_rain_tomorrow_mm : ℚ
  watering_decision : String
  water_amount_liters : ℤ
  tank_level_percent : ℚ
  field_condition : String
  temperature_warning : Option String
deriving Repr, DecidableEq

/-- The inner `result` object for this request. `profiles` abstracts
the display lookup `CROP_PROFILES.get(crop, \x7b\x7d).get('display', crop)`
of line 145, whose table is omitted from the snapshot. -/
def mkResult (profiles : String → Option String) (inp : RouteInputs) : RouteResult :=
  { crop := cropOf inp
    crop_display := (profiles (cropOf inp)).getD (cropOf inp)
    sow_date := toString (sowDateOf inp)
    days_elapsed := inp.kcResult.2.2
    stage := inp.kcResult.2.1
    kc := inp.kcResult.1
    et0_mm_per_day := et0OrDefault inp.et0_fetch
    soil_moisture := inp.sensor.soil_moisture
    humidity := inp.sensor.humidity
    predicted_rain_tomorrow_mm := predictedRain inp.forecast
    watering_decision := finalTextOf inp
    water_amount_liters := waterAmountOf inp
    tank_level_percent := inp.tank.getD 0
    field_condition := classifyCondition inp.sensor.soil_moisture
    temperature_warning := tempWarning inp.forecast }

/-- The localized response envelope (lines 161-170): translated labels
plus the raw sensor/tank payloads and the inner result. -/
structure RouteResponse where
  title : String
  watering_decision_label : String
  water_amount_label : String
  field_condition_label : String
  latest_sensor_label : String
  sensor : SensorReading
  tank : Option ℚ
  result : RouteResult
deriving DecidableEq

/-- The full response for this request; `tfun` abstracts the
translation function `t(key, lang)`, whose table is omitted from the
snapshot. -/
def mkResponse (tfun : String → String → String) (profiles : String → Option String)
    (lang : String) (inp : RouteInputs) : RouteResponse :=
  { title := tfun "title" lang
    watering_decision_label := tfun "watering_decision" lang
    water_amount_label := tfun "water_amount" lang
    field_condition_label := tfun "field_condition" lang
    latest_sensor_label := tfun "latest_sensor" lang
    sensor := inp.sensor
    tank := inp.tank
    result := mkResult profiles inp }

/-- The `/api/watering_decision` route: given the request-scoped inputs
and the current contents of the `decisions` store, return either the
HTTP error status or the response, together with the new store
contents. A missing sensor timestamp aborts with 404 before anything is
written (lines 62-64); otherwise one record is appended (line 123). -/
def watering_decision (tfun : String → String → String)
    (profiles : String → Option String) (lang : String)
    (inp : RouteInputs) (decisions : List DecisionRecord) :
    Except ℕ RouteResponse × List DecisionRecord :=
  match inp.sensor.timestamp with
  | none => (Except.error 404, decisions)
  | some _ => (Except.ok (mkResponse tfun profiles lang inp), decisions ++ [mkRecord inp])

/-- Constant translation function used to instantiate witnesses. -/
def tfun0 : String → String → String := fun k _ => k

/-- Empty crop-display table used to instantiate witnesses. -/
def profiles0 : String → Option String := fun _ => none

/-- Claim C1: the decision text of a successful call is produced by
first-match-wins evaluation with thresholds 30.0 / 10.0 / 0.3: soil at
or above 30 gives the sufficient-moisture text; else today's rain above
0.3 gives the rain-today text; else tomorrow's rain above 0.3 with soil
at least 10 gives the rain-tomorrow text; else soil below 10 with
tomorrow's rain above 0.3 gives the minimal-watering text; else
humidity below 30 gives the low-humidity text. -/
theorem decision_rules_first_match (soil humidity today tomorrow : ℚ) :
    (soil ≥ 30 → decisionTextPre soil humidity today tomorrow =
      "No watering needed; soil moisture sufficient.") ∧
    (soil < 30 → today > 3/10 → decisionTextPre soil humidity today tomorrow =
      "No watering needed; rain expected today.") ∧
    (soil < 30 → today ≤ 3/10 → tomorrow > 3/10 → soil ≥ 10 →
      decisionTextPre soil humidity today tomorrow =
        "No watering needed; rain expected tomorrow and soil not critically low.") ∧
    (soil < 30 → today ≤ 3/10 → soil < 10 → tomorrow > 3/10 →
      decisionTextPre soil humidity today tomorrow =
        "Minimal watering recommended; soil critically low but rain tomorrow.") ∧
    (soil < 30 → today ≤ 3/10 → ¬(tomorrow > 3/10 ∧ soil ≥ 10) →
      ¬(soil < 10 ∧ tomorrow > 3/10) → humidity < 30 →
      decisionTextPre soil humidity today tomorrow =
        "Watering needed; low humidity and no rain expected.") := by
  unfold decisionTextPre moisture_threshold critical_moisture
  refine ⟨fun h1 => if_pos h1, fun h1 h2 => ?_, fun h1 h2 h3 h4 => ?_,
    fun h1 h2 h3 h4 => ?_, fun h1 h2 h3 h4 h5 => ?_⟩
  · rw [if_neg (not_le.mpr h1), if_pos h2]
  · rw [if_neg (not_le.mpr h1), if_neg (not_lt.mpr h2), if_pos ⟨h3, h4⟩]
  · rw [if_neg (not_le.mpr h1), if_neg (not_lt.mpr h2),
      if_neg (fun hc => absurd hc.2 (not_le.mpr h3)), if_pos ⟨h3, h4⟩]
  · rw [if_neg (not_le.mpr h1), if_neg (not_lt.mpr h2), if_neg h3, if_neg h4, if_pos h5]

/-- Witness for C1: a concrete input taking the first rule. -/
theorem decision_rules_first_match_witness :
    decisionTextPre 35 50 0 0 = "No watering needed; soil moisture sufficient." :=
  (decision_rules_first_match 35 50 0 0).1 (by norm_num)

/-- Claim C2: `calculate_water_amount` never returns a negative number
of liters (here proved for all rational inputs, in particular all
non-negative ones); the formula itself is the definition above. -/
theorem calculate_water_amount_nonneg (soil area soil_depth rain et0 kc humidity : ℚ) :
    0 ≤ calculate_water_amount soil area soil_depth rain et0 kc humidity := by
  unfold calculate_water_amount
  exact le_max_left 0 _

/-- Claim C3: on a successful call, when the rule-stage text claims
"No watering needed" but the computed water amount is positive, both
the returned decision text and the persisted record carry the
deficit-warning text embedding the computed liters. -/
theorem reconciliation_override (tfun : String → String → String)
    (profiles : String → Option String) (lang : String)
    (inp : RouteInputs) (ds : List DecisionRecord) (ts : Nat)
    (ht : inp.sensor.timestamp = some ts)
    (hpre : strHasSub (preTextOf inp) "No watering needed" = true)
    (hw : 0 < waterAmountOf inp) :
    ∃ resp, (watering_decision tfun profiles lang inp ds).1 = Except.ok resp ∧
      resp.result.watering_decision =
        "Warning: water deficit detected, " ++ toString (waterAmountOf inp) ++
          " liters needed." ∧
      (watering_decision tfun profiles lang inp ds).2 =
        ds ++ [{ decision := resp.result.watering_decision,
                 water_amount := waterAmountOf inp }] := by
  have hfin : finalTextOf inp =
      "Warning: water deficit detected, " ++ toString (waterAmountOf inp) ++
        " liters needed." := by
    unfold finalTextOf finalDecisionText
    exact if_pos ⟨hpre, hw⟩
  refine ⟨mkResponse tfun profiles lang inp, ?_, ?_, ?_⟩
  · simp [watering_decision, ht]
  · exact hfin
  · simp [watering_decision, ht, mkRecord, mkResponse, mkResult, hfin]

/-- Concrete route inputs: soil 35 (rule 1 fires) with a large ET0 so
that the computed water amount is positive. -/
def inpC3 : RouteInputs :=
  { sensor := ⟨35, 25, 50, some 0⟩, fieldRow := none, forecast := none,
    et0_fetch := some 20, kcResult := (1, "Vegetative", 40), tank := none, today := 0 }

/-- Witness for C3 at `inpC3`. -/
theorem reconciliation_override_witness :
    ∃ resp, (watering_decision tfun0 profiles0 "en" inpC3 []).1 = Except.ok resp ∧
      resp.result.watering_decision =
        "Warning: water deficit detected, " ++ toString (waterAmountOf inpC3) ++
          " liters needed." ∧
      (watering_decision tfun0 profiles0 "en" inpC3 []).2 =
        [] ++ [{ decision := resp.result.watering_decision,
                 water_amount := waterAmountOf inpC3 }] :=
  reconciliation_override tfun0 profiles0 "en" inpC3 [] 0 rfl (by decide)
    (by norm_num [waterAmountOf, inpC3, areaOf, depthOf, predictedRain, et0OrDefault,
      calculate_water_amount, round_eq])

/-- Claim C4: on a successful call, the water amount returned in the
result and the one stored in the decision record are both the engine's
raw computed value, whatever the decision text turned out to be. -/
theorem water_amount_raw (tfun : String → String → String)
    (profiles : String → Option String) (lang : String)
    (inp : RouteInputs) (ds : List DecisionRecord) (ts : Nat)
    (ht : inp.sensor.timestamp = some ts) :
    ∃ resp, (watering_decision tfun profiles lang inp ds).1 = Except.ok resp ∧
      resp.result.water_amount_liters = waterAmountOf inp ∧
      (watering_decision tfun profiles lang inp ds).2 =
        ds ++ [{ decision := resp.result.watering_decision,
                 water_amount := waterAmountOf inp }] := by
  refine ⟨mkResponse tfun profiles lang inp, ?_, rfl, ?_⟩
  · simp [watering_decision, ht]
  · simp [watering_decision, ht, mkRecord, mkResponse, mkResult]

/-- Concrete route inputs for the C4 witness: rule 5 fires. -/
def inpC4 : RouteInputs :=
  { sensor := ⟨20, 25, 20, some 7⟩, fieldRow := some ⟨"maize", 100, 10, 2/10⟩,
    forecast := some ⟨[0, 0], [25, 26]⟩, et0_fetch := some 4,
    kcResult := (1, "Vegetative", 40), tank := some 55, today := 140 }

/-- Witness for C4 at `inpC4`. -/
theorem water_amount_raw_witness :
    ∃ resp, (watering_decision tfun0 profiles0 "en" inpC4 []).1 = Except.ok resp ∧
      resp.result.water_amount_liters = waterAmountOf inpC4 ∧
      (watering_decision tfun0 profiles0 "en" inpC4 []).2 =
        [] ++ [{ decision := resp.result.watering_decision,
                 water_amount := waterAmountOf inpC4 }] :=
  water_amount_raw tfun0 profiles0 "en" inpC4 [] 7 rfl

/-- Claim C5: when the latest sensor reading has no timestamp the route
answers with the 404 error and the decisions store is unchanged. -/
theorem no_sensor_data_404 (tfun : String → String → String)
    (profiles : String → Option String) (lang : String)
    (inp : RouteInputs) (ds : List DecisionRecord)
    (ht : inp.sensor.timestamp = none) :
    watering_decision tfun profiles lang inp ds = (Except.error 404, ds) := by
  simp [watering_decision, ht]

/-- Concrete route inputs with an absent sensor timestamp. -/
def inpC5 : RouteInputs :=
  { sensor := ⟨20, 25, 20, none⟩, fieldRow := none, forecast := none,
    et0_fetch := none, kcResult := (1, "Vegetative", 40), tank := none, today := 0 }

/-- Witness for C5 at `inpC5`. -/
theorem no_sensor_data_404_witness :
    watering_decision tfun0 profiles0 "en" inpC5 [] = (Except.error 404, []) :=
  no_sensor_data_404 tfun0 profiles0 "en" inpC5 [] rfl

/-- Claim C6 counterexample: a fetch that returns the float `0.0` does
not have its value used — Python's `or` treats `0.0` as falsy, so the
default `3.0` replaces it. -/
theorem et0_zero_counterexample :
    et0OrDefault (some 0) ≠ 0 ∧ et0OrDefault (some 0) = 3 := by
  refine ⟨?_, rfl⟩
  decide

/-- Claim C6 (amended): a failed fetch gives the default 3.0; a fetch
returning a nonzero float has its value used; a fetch returning 0.0 is
treated like a failure and also gives 3.0. -/
theorem et0_default_behavior :
    et0OrDefault none = 3 ∧ (∀ v : ℚ, v ≠ 0 → et0OrDefault (some v) = v) ∧
      et0OrDefault (some 0) = 3 := by
  refine ⟨rfl, fun v hv => ?_, rfl⟩
  simp [et0OrDefault, hv]

/-- Witness for the amended C6: a nonzero fetched value is used. -/
theorem et0_default_behavior_witness : et0OrDefault (some 5) = 5 :=
  et0_default_behavior.2.1 5 (by norm_num)

/-- Claim C7: the field-condition classifier is total with exactly
three labels: "Poor" below 10, "Fair" from 10 up to below 30, "Good"
from 30 up. -/
theorem classify_total (soil : ℚ) :
    (soil < 10 → classifyCondition soil = "Poor - critically low moisture") ∧
    (10 ≤ soil → soil < 30 → classifyCondition soil = "Fair - moisture below threshold") ∧
    (30 ≤ soil → classifyCondition soil = "Good") ∧
    (classifyCondition soil = "Poor - critically low moisture" ∨
      classifyCondition soil = "Fair - moisture below threshold" ∨
      classifyCondition soil = "Good") := by
  unfold classifyCondition critical_moisture moisture_threshold
  refine ⟨fun h => if_pos h, fun h1 h2 => ?_, fun h => ?_, ?_⟩
  · rw [if_neg (not_lt.mpr h1), if_pos h2]
  · rw [if_neg (by linarith : ¬ soil < 10), if_neg (not_lt.mpr h)]
  · by_cases h1 : soil < 10
    · exact Or.inl (if_pos h1)
    · by_cases h2 : soil < 30
      · exact Or.inr (Or.inl (by rw [if_neg h1, if_pos h2]))
      · exact Or.inr (Or.inr (by rw [if_neg h1, if_neg h2]))

/-- Witness for C7: a critically low soil moisture. -/
theorem classify_total_witness :
    classifyCondition 5 = "Poor - critically low moisture" :=
  (classify_total 5).1 (by norm_num)

/-- Claim C8: given a forecast with max temperatures for day 0 and
day 1, the temperature-spike advisory is emitted exactly when the day-1
maximum strictly exceeds the day-0 maximum plus 4, and is absent
otherwise. -/
theorem temp_spike_iff (d : ForecastData) (h : 2 ≤ d.max_temperatures.length) :
    (tempWarning (some d) = some "High temperature spike expected tomorrow." ↔
      d.max_temperatures.getD 1 0 > d.max_temperatures.getD 0 0 + 4) ∧
    (¬ d.max_temperatures.getD 1 0 > d.max_temperatures.getD 0 0 + 4 →
      tempWarning (some d) = none) := by
  have h2 : tempWarning (some d) =
      if d.max_temperatures.getD 1 0 > d.max_temperatures.getD 0 0 + 4 then
        some "High temperature spike expected tomorrow."
      else none := by
    simp only [tempWarning, if_pos h]
  by_cases hc : d.max_temperatures.getD 1 0 > d.max_temperatures.getD 0 0 + 4
  · rw [h2, if_pos hc]
    exact ⟨⟨fun _ => hc, fun _ => rfl⟩, fun hn => absurd hc hn⟩
  · rw [h2, if_neg hc]
    exact ⟨⟨fun he => absurd he (by simp), fun he => absurd he hc⟩, fun _ => rfl⟩

/-- Witness for C8: a 10-degree spike triggers the advisory. -/
theorem temp_spike_iff_witness :
    tempWarning (some ⟨[], [20, 30]⟩) = some "High temperature spike expected tomorrow." :=
  (temp_spike_iff ⟨[], [20, 30]⟩ (by decide)).1.mpr (by norm_num)

/-- Claim C9: on a successful call where soil is below 30, neither
day's rain exceeds 0.3 and humidity is at least 30, the decision text
returned and persisted is the empty string, whatever the computed water
amount is. -/
theorem fallthrough_empty_text (tfun : String → String → String)
    (profiles : String → Option String) (lang : String)
    (inp : RouteInputs) (ds : List DecisionRecord) (ts : Nat)
    (ht : inp.sensor.timestamp = some ts)
    (h1 : inp.sensor.soil_moisture < 30)
    (h2 : todayPrec inp.forecast ≤ 3/10)
    (h3 : predictedRain inp.forecast ≤ 3/10)
    (h4 : 30 ≤ inp.sensor.humidity) :
    ∃ resp, (watering_decision tfun profiles lang inp ds).1 = Except.ok resp ∧
      resp.result.watering_decision = "" ∧
      (watering_decision tfun profiles lang inp ds).2 =
        ds ++ [{ decision := "", water_amount := waterAmountOf inp }] := by
  have hpre : preTextOf inp = "" := by
    unfold preTextOf decisionTextPre moisture_threshold critical_moisture
    rw [if_neg (not_le.mpr h1), if_neg (not_lt.mpr h2),
      if_neg (fun hc => absurd hc.1 (not_lt.mpr h3)),
      if_neg (fun hc => absurd hc.2 (not_lt.mpr h3)),
      if_neg (not_lt.mpr h4)]
  have hfin : finalTextOf inp = "" := by
    unfold finalTextOf finalDecisionText
    rw [hpre]
    exact if_neg (fun hc => absurd hc.1 (by decide))
  refine ⟨mkResponse tfun profiles lang inp, ?_, hfin, ?_⟩
  · simp [watering_decision, ht]
  · simp [watering_decision, ht, mkRecord, hfin]

/-- Concrete route inputs for the C9 witness: the rule-6 fall-through
with a strictly positive computed water amount. -/
def inpC9 : RouteInputs :=
  { sensor := ⟨20, 25, 50, some 3⟩, fieldRow := none, forecast := none,
    et0_fetch := some 20, kcResult := (1, "Vegetative", 40), tank := none, today := 0 }

/-- Witness for C9 at `inpC9` (where the computed amount is positive). -/
theorem fallthrough_empty_text_witness :
    (∃ resp, (watering_decision tfun0 profiles0 "en" inpC9 []).1 = Except.ok resp ∧
      resp.result.watering_decision = "" ∧
      (watering_decision tfun0 profiles0 "en" inpC9 []).2 =
        [] ++ [{ decision := "", water_amount := waterAmountOf inpC9 }]) ∧
    0 < waterAmountOf inpC9 :=
  ⟨fallthrough_empty_text tfun0 profiles0 "en" inpC9 [] 3 rfl (by decide)
    (by norm_num [todayPrec, inpC9]) (by norm_num [predictedRain, inpC9]) (by decide),
    by norm_num [waterAmountOf, inpC9, areaOf, depthOf, predictedRain, et0OrDefault,
      calculate_water_amount, round_eq]⟩

/-- Claim C10: two calls identical except for the `lang` parameter
produce the same inner result object, the same echoed sensor and tank
payloads and the same decisions-store contents; only the translated
label fields may differ. -/
theorem lang_noninterference (tfun : String → String → String)
    (profiles : String → Option String) (lang1 lang2 : String)
    (inp : RouteInputs) (ds : List DecisionRecord) :
    ((watering_decision tfun profiles lang1 inp ds).1).map RouteResponse.result =
      ((watering_decision tfun profiles lang2 inp ds).1).map RouteResponse.result ∧
    ((watering_decision tfun profiles lang1 inp ds).1).map RouteResponse.sensor =
      ((watering_decision tfun profiles lang2 inp ds).1).map RouteResponse.sensor ∧
    ((watering_decision tfun profiles lang1 inp ds).1).map RouteResponse.tank =
      ((watering_decision tfun profiles lang2 inp ds).1).map RouteResponse.tank ∧
    (watering_decision tfun profiles lang1 inp ds).2 =
      (watering_decision tfun profiles lang2 inp ds).2 := by
  cases h : inp.sensor.timestamp <;>
    simp [watering_decision, h, mkResponse, Except.map]

end Irrigation
